import Mathlib

/-!
Verification development for the WindowsGSMBackup repository.

The Python sources under `src/wingsm_backup/` are shallowly embedded below:

* `models.py`            → the structures `ServerConfig`, `BackupSchedule`,
                           `ServerBackupResult`, `BackupJob` and the status enums;
* `services/backup_service.py`    → `backup_server`, `backup_dir_deleted`,
                           `cleanup_old_backups`;
* `services/scheduler_service.py` → `schedule_trigger`, `add_schedule`,
                           `get_schedule`, `cloud_upload_step`, `process_server`,
                           `execute_backup_async`;
* `services/restore_service.py`   → `extract_timestamp`, `restore_backup`,
                           `sort_backups` / `discover_backups`.

Filesystem, process and cloud effects are modelled by explicit environment
records (`BackupEnv`, `RestoreEnv`) whose fields are the oracles the Python
code consults (does a path exist, is a server running, does an upload
succeed, ...).  Wall-clock values (`datetime.now()`, uuid4) enter as
explicit parameters.  Machine floats only appear in the source as POSIX
timestamps compared at whole-day granularity, so times are embedded as `Int`
seconds.
-/

/-! ### Data model (`models.py`) -/

inductive ScheduleType
  | daily
  | weekly
  | interval
deriving DecidableEq, Repr

inductive CloudBackupType
  | none
  | onedrive
  | google_cloud
deriving DecidableEq, Repr

inductive BackupStatus
  | pending
  | running
  | completed
  | failed
  | cancelled
deriving DecidableEq, Repr

structure TimeOfDay where
  hour : Nat
  minute : Nat
deriving DecidableEq, Repr

/-- `models.ServerConfig` (dataclass) with its field defaults. -/
structure ServerConfig where
  server_id : String
  server_name : String
  game_type : String := ""
  server_path : String := ""
  save_game_path : String := ""
  enabled : Bool := true
deriving DecidableEq, Repr

/-- `models.BackupSchedule` (dataclass) with its field defaults.  The Python
default for `time` is `datetime.now().time()`, a wall-clock value; it is fixed
to `00:00` here (no claim depends on the fallback time). -/
structure BackupSchedule where
  schedule_id : String := ""
  name : String := ""
  server_ids : List String := []
  schedule_type : ScheduleType := ScheduleType.daily
  time : TimeOfDay := ⟨0, 0⟩
  interval_minutes : Nat := 60
  days_of_week : List Nat := []
  enabled : Bool := true
  backup_path : String := ""
  retention_days : Int := 7
  enable_cloud_backup : Bool := false
  cloud_backup_type : CloudBackupType := CloudBackupType.none
  cloud_backup_path : String := "WinGSMBackups"
deriving DecidableEq, Repr

/-- `models.ServerBackupResult` (dataclass) with its field defaults. -/
structure ServerBackupResult where
  server_id : String
  server_name : String
  success : Bool := false
  backup_path : String := ""
  cloud_backup_path : String := ""
  cloud_backup_success : Bool := false
  error_message : String := ""
  backup_size_bytes : Nat := 0
deriving DecidableEq, Repr

/-- `models.BackupJob`.  `start_time`/`end_time` are wall-clock stamps taken
with `datetime.now()` and are not consulted by any logic, so they are not
carried here; `job_id` is a fresh uuid, passed in by the caller of the
embedding. -/
structure BackupJob where
  job_id : String := ""
  schedule_id : String := ""
  status : BackupStatus := BackupStatus.pending
  message : String := ""
  server_results : List ServerBackupResult := []
deriving DecidableEq, Repr

/-! ### Retention sweeper (`backup_service.cleanup_old_backups`)

A snapshot directory is represented by its last-modified time in whole
seconds (`st_mtime`); `cleanup_old_backups` receives, per server directory,
the list of its child backup directories' mtimes and returns the ones that
survive the sweep. -/

/-- The deletion test of `cleanup_old_backups`:
`backup_dir.stat().st_mtime < datetime.now().timestamp() - retention_days*24*60*60`. -/
def backup_dir_deleted (now retention_days mtime : Int) : Bool :=
  mtime < now - retention_days * 24 * 60 * 60

/-- `backup_service.cleanup_old_backups`, lines 61-87: every server
subdirectory is visited, and each of its child backup directories is removed
exactly when `backup_dir_deleted` holds (removal errors are swallowed; the
environment here is one where `shutil.rmtree` succeeds).  Returns the kept
directories. -/
def cleanup_old_backups (now retention_days : Int)
    (server_dirs : List (List Int)) : List (List Int) :=
  server_dirs.map fun backups =>
    backups.filter fun mtime => !backup_dir_deleted now retention_days mtime

/-! ### Scheduler trigger registration (`scheduler_service.py`, lines 50-100) -/

/-- A trigger as handed to APScheduler (`CronTrigger` / `IntervalTrigger`). -/
inductive Trigger
  | cron_daily (hour minute : Nat)
  | cron_weekly (day_of_week : List Nat) (hour minute : Nat)
  | interval (minutes : Nat)
deriving DecidableEq, Repr

/-- One entry of APScheduler's job store: `add_job(self._execute_backup_job,
trigger=trigger, id=job_id, args=[schedule.schedule_id], replace_existing=True)`. -/
structure ApsJob where
  id : String
  trigger : Trigger
  arg_schedule_id : String
deriving DecidableEq, Repr

/-- APScheduler `add_job` with `replace_existing=True`: an existing job with
the same id is replaced in place, otherwise the job is appended. -/
def aps_add_job (jobs : List ApsJob) (j : ApsJob) : List ApsJob :=
  if jobs.any fun x => x.id == j.id then
    jobs.map fun x => if x.id == j.id then j else x
  else
    jobs ++ [j]

/-- The scheduler's state: the `self.schedules` list plus APScheduler's job
store. -/
structure SchedulerState where
  schedules : List BackupSchedule
  jobs : List ApsJob
deriving DecidableEq, Repr

/-- The trigger computed by `add_schedule` (scheduler_service.py lines
59-72).  Note the weekly branch: `days = [d + 1 for d in schedule.days_of_week]`
before building `CronTrigger(day_of_week=...)`. -/
def schedule_trigger (s : BackupSchedule) : Trigger :=
  match s.schedule_type with
  | ScheduleType.daily => Trigger.cron_daily s.time.hour s.time.minute
  | ScheduleType.weekly =>
      Trigger.cron_weekly (s.days_of_week.map fun d => d + 1) s.time.hour s.time.minute
  | ScheduleType.interval => Trigger.interval s.interval_minutes

/-- `scheduler_service.add_schedule`, lines 50-80: append to `self.schedules`
unconditionally; if the schedule is enabled, register the computed trigger
under job id `"backup_" ++ schedule_id`, replacing any existing job with that
id. -/
def add_schedule (st : SchedulerState) (s : BackupSchedule) : SchedulerState :=
  let st' : SchedulerState := { st with schedules := st.schedules ++ [s] }
  if !s.enabled then st'
  else
    { st' with
      jobs := aps_add_job st'.jobs
        ⟨"backup_" ++ s.schedule_id, schedule_trigger s, s.schedule_id⟩ }

/-- `scheduler_service.get_schedule`, lines 91-96: linear scan returning the
first schedule whose `schedule_id` matches. -/
def get_schedule (schedules : List BackupSchedule) (schedule_id : String) :
    Option BackupSchedule :=
  schedules.find? fun s => s.schedule_id == schedule_id

/-- Weekday names, for reading APScheduler's day-of-week field. -/
inductive Weekday
  | monday
  | tuesday
  | wednesday
  | thursday
  | friday
  | saturday
  | sunday
deriving DecidableEq, Repr

/-- Models the day-of-week encoding of the external APScheduler
`CronTrigger`: integer 0 is Monday through 6 Sunday — exactly what the
comment inside `add_schedule` (scheduler_service.py line 64) records about
APScheduler.  Any other integer is rejected by `CronTrigger` construction
(`ValueError`), modelled as `Option.none`. -/
def apsDayOfWeek : Nat → Option Weekday
  | 0 => some Weekday.monday
  | 1 => some Weekday.tuesday
  | 2 => some Weekday.wednesday
  | 3 => some Weekday.thursday
  | 4 => some Weekday.friday
  | 5 => some Weekday.saturday
  | 6 => some Weekday.sunday
  | _ => Option.none

/-- The days on which a registered trigger fires, under APScheduler's
encoding (`Option.none` marks a day value APScheduler rejects). -/
def trigger_fire_days : Trigger → List (Option Weekday)
  | Trigger.cron_weekly days _ _ => days.map apsDayOfWeek
  | _ => []

/-! ### Job executor (`scheduler_service.execute_backup_async` and
`backup_service.backup_server`)

Effects are supplied by a `BackupEnv`: which paths exist, which servers
report running, whether the archive step raises, and the cloud
collaborators' state (`onedrive_service.is_authenticated`,
`google_cloud_service.is_initialized`, `upload_backup`).  An upload that
raises is an `Except.error`; one that returns `False` is `Except.ok false`.
With these total collaborator oracles, every exception the Python code can
see is already caught inside `backup_server` (its own `except`), inside the
cloud `try` block, or does not arise, so the per-server outer `except` branch
of `execute_backup_async` (lines 199-207) is unreachable in the embedding. -/

structure BackupEnv where
  /-- `Path(server.save_game_path).exists()` -/
  savePathExists : String → Bool
  /-- exception message raised while creating the directory tree or writing
  the zip for this server, if any (`backup_server`'s `except Exception`) -/
  archiveError : String → Option String
  /-- `zip_path.stat().st_size` -/
  archiveSize : String → Nat
  /-- `windowsgsm_service.is_server_running(server_id)` -/
  isRunning : String → Bool
  /-- `onedrive_service.is_authenticated` -/
  onedriveAuthenticated : Bool
  /-- `google_cloud_service.is_initialized` -/
  googleInitialized : Bool
  /-- `onedrive_service.upload_backup(backup_path, cloud_path)` -/
  onedriveUpload : String → String → Except String Bool
  /-- `google_cloud_service.upload_backup(backup_path, cloud_path)` -/
  googleUpload : String → String → Except String Bool
  /-- `datetime.now().strftime("%Y-%m-%d_%H-%M-%S")` taken at the backup -/
  timestamp : String

/-- `backup_service.backup_server`, lines 18-59: fail fast when the savegame
path is missing; otherwise build `{backup_root}/{server_id}/{timestamp}/
{server_name}_{timestamp}.zip`, which either raises (recorded in
`error_message`, `success=False`) or succeeds with the archive's size. -/
def backup_server (env : BackupEnv) (server : ServerConfig)
    (backup_root_path : String) : ServerBackupResult :=
  let result : ServerBackupResult :=
    { server_id := server.server_id, server_name := server.server_name }
  if !env.savePathExists server.save_game_path then
    { result with success := false,
                  error_message := "Savegame path not found or invalid" }
  else
    match env.archiveError server.server_id with
    | some msg => { result with success := false, error_message := msg }
    | Option.none =>
        let zip_path :=
          backup_root_path ++ "/" ++ server.server_id ++ "/" ++ env.timestamp
            ++ "/" ++ server.server_name ++ "_" ++ env.timestamp ++ ".zip"
        { result with backup_path := zip_path,
                      backup_size_bytes := env.archiveSize zip_path,
                      success := true }

/-- Observable side effects of one job run, in program order. -/
inductive JobEvent
  | stopServer (server_id : String)
  | archiveAttempt (server_id : String)
  | startServer (server_id : String)
deriving DecidableEq, Repr

/-- The cloud-upload section of `execute_backup_async`, lines 155-194: runs
only when the local backup succeeded, `schedule.enable_cloud_backup` and
`result.backup_path` is non-empty (Python truthiness of the string); an
unauthenticated / uninitialized backend leaves the result untouched
(`cloud_backup_success` keeps its `False` default); an upload that raises is
caught and records `cloud_backup_success=False`.  `result.success` is never
assigned here. -/
def cloud_upload_step (env : BackupEnv) (schedule : BackupSchedule)
    (server : ServerConfig) (result : ServerBackupResult) : ServerBackupResult :=
  if result.success && schedule.enable_cloud_backup && result.backup_path != "" then
    match schedule.cloud_backup_type with
    | CloudBackupType.onedrive =>
        if env.onedriveAuthenticated then
          let cloud_path :=
            if schedule.cloud_backup_path != "" then schedule.cloud_backup_path
            else "WinGSMBackups/" ++ server.server_id
          match env.onedriveUpload result.backup_path cloud_path with
          | Except.ok ok =>
              { result with cloud_backup_path := cloud_path,
                            cloud_backup_success := ok }
          | Except.error _ => { result with cloud_backup_success := false }
        else result
    | CloudBackupType.google_cloud =>
        if env.googleInitialized then
          let cloud_path :=
            if schedule.cloud_backup_path != "" then
              schedule.cloud_backup_path ++ "/" ++ server.server_id
            else server.server_id
          match env.googleUpload result.backup_path cloud_path with
          | Except.ok ok =>
              { result with cloud_backup_path := cloud_path,
                            cloud_backup_success := ok }
          | Except.error _ => { result with cloud_backup_success := false }
        else result
    | CloudBackupType.none => result
  else result

/-- The per-server loop body of `execute_backup_async`, lines 142-207: stop a
running server, run the local backup, run the cloud section (which mutates
the result object already appended to the job), and restart the server iff
the local backup succeeded. -/
def process_server (env : BackupEnv) (schedule : BackupSchedule)
    (server : ServerConfig) : ServerBackupResult × List JobEvent :=
  let stop_events :=
    if env.isRunning server.server_id then [JobEvent.stopServer server.server_id]
    else []
  let result := backup_server env server schedule.backup_path
  let result := cloud_upload_step env schedule server result
  let start_events :=
    if result.success then [JobEvent.startServer server.server_id] else []
  (result, stop_events ++ [JobEvent.archiveAttempt server.server_id] ++ start_events)

/-- `scheduler_service.execute_backup_async`, lines 113-229, up to and
including the status computation.  An unknown `schedule_id` falls back to
`BackupSchedule()` (all defaults, in particular `server_ids = []`).  The
`servers` argument is the resolved server list (the Python `servers is None`
branch reads it from the persisted config).  After the part modelled here the
source calls `cleanup_old_backups(schedule.backup_path,
schedule.retention_days)` — modelled separately above — and the completion
callback.  Returns the job together with the stop/archive/start events in
program order. -/
def execute_backup_async (env : BackupEnv) (schedules : List BackupSchedule)
    (schedule_id : String) (servers : List ServerConfig) (job_id : String) :
    BackupJob × List JobEvent :=
  let schedule := (get_schedule schedules schedule_id).getD {}
  let enabled_servers :=
    servers.filter fun s => schedule.server_ids.contains s.server_id && s.enabled
  let steps := enabled_servers.map (process_server env schedule)
  let results := steps.map Prod.fst
  ({ job_id := job_id,
     schedule_id := schedule_id,
     status :=
       if results.all (fun r => r.success) then BackupStatus.completed
       else BackupStatus.failed,
     server_results := results },
   steps.foldr (fun p acc => p.2 ++ acc) [])

/-! ### Timestamp parsing (`restore_service.BackupInfo._extract_timestamp`)

String manipulation is embedded over `List Char` so that everything reduces
in the kernel.  `datetime.strptime` is modelled for the two format strings
the source uses, following CPython's `_strptime` machinery: each directive
compiles to a regex alternation (`%Y` → exactly four digits, `%m` →
`1[0-2]|0[1-9]|[1-9]`, ...), the whole format must consume the whole string,
and the matched values must form a valid `datetime` (month 1-12, day within
the month, year at least 1) or `ValueError` is raised — modelled as
`Option.none`. -/

def digitVal (c : Char) : Nat := c.toNat - 48

/-- Candidate matches for a two-character regex alternative: first character
satisfying `p1`, second satisfying `p2`; value is the two-digit number. -/
def matchTwo (p1 p2 : Char → Bool) : List Char → Option (Nat × List Char)
  | a :: b :: rest =>
      if p1 a && p2 b then some (digitVal a * 10 + digitVal b, rest)
      else Option.none
  | _ => Option.none

/-- Candidate match for a one-character regex alternative. -/
def matchOne (p : Char → Bool) : List Char → Option (Nat × List Char)
  | a :: rest => if p a then some (digitVal a, rest) else Option.none
  | _ => Option.none

/-- The six value directives of the formats in use, plus literal characters. -/
inductive Directive
  | year
  | month
  | day
  | hour
  | minute
  | second
  | lit (c : Char)
deriving DecidableEq, Repr

/-- The regex alternatives of one directive, in the preference order of
CPython's `TimeRE` patterns.  Literals carry no value (`Option.none`). -/
def directiveMatches : Directive → List Char → List (Option Nat × List Char)
  | Directive.year, l =>
      match l with
      | a :: b :: c :: d :: rest =>
          if a.isDigit && b.isDigit && c.isDigit && d.isDigit then
            [(some (digitVal a * 1000 + digitVal b * 100 + digitVal c * 10
              + digitVal d), rest)]
          else []
      | _ => []
  | Directive.month, l =>
      ([matchTwo (fun c => c == '1') (fun c => '0' ≤ c && c ≤ '2') l,
        matchTwo (fun c => c == '0') (fun c => '1' ≤ c && c ≤ '9') l,
        matchOne (fun c => '1' ≤ c && c ≤ '9') l].filterMap
        (Option.map fun p => (some p.1, p.2)))
  | Directive.day, l =>
      ([matchTwo (fun c => c == '3') (fun c => '0' ≤ c && c ≤ '1') l,
        matchTwo (fun c => '1' ≤ c && c ≤ '2') Char.isDigit l,
        matchTwo (fun c => c == '0') (fun c => '1' ≤ c && c ≤ '9') l,
        matchOne (fun c => '1' ≤ c && c ≤ '9') l].filterMap
        (Option.map fun p => (some p.1, p.2)))
  | Directive.hour, l =>
      ([matchTwo (fun c => c == '2') (fun c => '0' ≤ c && c ≤ '3') l,
        matchTwo (fun c => '0' ≤ c && c ≤ '1') Char.isDigit l,
        matchOne Char.isDigit l].filterMap
        (Option.map fun p => (some p.1, p.2)))
  | Directive.minute, l =>
      ([matchTwo (fun c => '0' ≤ c && c ≤ '5') Char.isDigit l,
        matchOne Char.isDigit l].filterMap
        (Option.map fun p => (some p.1, p.2)))
  | Directive.second, l =>
      ([matchTwo (fun c => '0' ≤ c && c ≤ '5') Char.isDigit l,
        matchOne Char.isDigit l].filterMap
        (Option.map fun p => (some p.1, p.2)))
  | Directive.lit c, l =>
      match l with
      | a :: rest => if a == c then [(Option.none, rest)] else []
      | [] => []

/-- First `some` of a list of options (ordered-alternation backtracking). -/
def firstSome : List (Option α) → Option α
  | [] => Option.none
  | some a :: _ => some a
  | Option.none :: rest => firstSome rest

/-- Backtracking match of a whole format against a whole input: the format's
directives in order, alternatives in preference order, and the entire input
must be consumed (`strptime` raises on unconverted trailing data).  Returns
the field values in directive order. -/
def matchFormat : List Directive → List Char → Option (List Nat)
  | [], [] => some []
  | [], _ :: _ => Option.none
  | dir :: dirs, input =>
      firstSome ((directiveMatches dir input).map fun vr =>
        (matchFormat dirs vr.2).map fun vs =>
          match vr.1 with
          | some v => v :: vs
          | Option.none => vs)

/-- A `datetime.datetime` value as produced by `strptime` on the formats in
use (microseconds and timezone never arise). -/
structure PyDateTime where
  year : Nat
  month : Nat
  day : Nat
  hour : Nat
  minute : Nat
  second : Nat
deriving DecidableEq, Repr

def isLeapYear (y : Nat) : Bool := (y % 4 == 0 && y % 100 != 0) || y % 400 == 0

def daysInMonth (y m : Nat) : Nat :=
  if m == 2 then (if isLeapYear y then 29 else 28)
  else if m == 4 || m == 6 || m == 9 || m == 11 then 30
  else 31

/-- The `datetime` constructor's validation: the regex already bounds hour,
minute and second, but the day must fit the month and the year must be at
least 1, else `ValueError`. -/
def mkDateTime (y mo d h mi s : Nat) : Option PyDateTime :=
  if 1 ≤ y && 1 ≤ mo && mo ≤ 12 && 1 ≤ d && d ≤ daysInMonth y mo
      && h ≤ 23 && mi ≤ 59 && s ≤ 59 then
    some ⟨y, mo, d, h, mi, s⟩
  else Option.none

/-- `datetime.strptime(input, "%Y-%m-%d_%H-%M-%S")`, as a directive list. -/
def fmtDashed : List Directive :=
  [Directive.year, Directive.lit '-', Directive.month, Directive.lit '-',
   Directive.day, Directive.lit '_', Directive.hour, Directive.lit '-',
   Directive.minute, Directive.lit '-', Directive.second]

/-- `datetime.strptime(input, "%Y%m%d_%H%M%S")`, as a directive list. -/
def fmtCompact : List Directive :=
  [Directive.year, Directive.month, Directive.day, Directive.lit '_',
   Directive.hour, Directive.minute, Directive.second]

/-- `datetime.strptime` on one of the above six-field formats: regex match of
the whole input, then `datetime` construction. -/
def strptime6 (fmt : List Directive) (input : List Char) : Option PyDateTime :=
  match matchFormat fmt input with
  | some [y, mo, d, h, mi, s] => mkDateTime y mo d h mi s
  | _ => Option.none

/-- `filename.replace(".zip", "")`: remove every (non-overlapping,
left-to-right) occurrence of `.zip`. -/
def stripAllZip : List Char → List Char
  | '.' :: 'z' :: 'i' :: 'p' :: rest => stripAllZip rest
  | c :: rest => c :: stripAllZip rest
  | [] => []

/-- Python `str.split('_')`. -/
def splitUnderscore (l : List Char) : List (List Char) :=
  match l with
  | [] => [[]]
  | c :: rest =>
      let r := splitUnderscore rest
      if c == '_' then [] :: r
      else
        match r with
        | [] => [[c]]
        | h :: t => (c :: h) :: t

/-- The `f"{date_str}_{time_str}"` string built from the last two
underscore-separated tokens of the extension-stripped filename, provided
there are at least three tokens (`len(parts) >= 3`). -/
def last_two_tokens (filename : String) : Option (List Char) :=
  let parts := splitUnderscore (stripAllZip filename.data)
  if 3 ≤ parts.length then
    some (parts.getD (parts.length - 2) [] ++ '_' :: parts.getD (parts.length - 1) [])
  else Option.none

/-- `restore_service.BackupInfo._extract_timestamp`, lines 20-53: strip
`.zip`, split on underscores, require at least three tokens, then try the
dashed format, the compact format, and finally the compact format again after
deleting every dash (`timestamp_str.replace('-', '')`).  Every failure path
yields `None`, never an exception. -/
def extract_timestamp (filename : String) : Option PyDateTime :=
  match last_two_tokens filename with
  | Option.none => Option.none
  | some ts =>
      match strptime6 fmtDashed ts with
      | some t => some t
      | Option.none =>
          match strptime6 fmtCompact ts with
          | some t => some t
          | Option.none => strptime6 fmtCompact (ts.filter fun c => c != '-')

/-! ### Discovery ordering (`restore_service.discover_backups`) -/

/-- `datetime.min`: year 1, January 1, midnight. -/
def datetime_min : PyDateTime := ⟨1, 1, 1, 0, 0, 0⟩

/-- Order-embedding of `datetime` values into `Nat`: Python compares
datetimes lexicographically on (year, month, day, hour, minute, second), and
each later field is strictly bounded by its radix here. -/
def dtKey (t : PyDateTime) : Nat :=
  ((((t.year * 13 + t.month) * 32 + t.day) * 24 + t.hour) * 60 + t.minute) * 60
    + t.second

/-- The restore-side view of one discovered archive
(`restore_service.BackupInfo`): the timestamp is parsed from the filename. -/
structure BackupInfo where
  filename : String
  timestamp : Option PyDateTime
deriving DecidableEq, Repr

/-- `BackupInfo.__init__`: `self.timestamp = self._extract_timestamp(filepath.name)`. -/
def mkBackupInfo (filename : String) : BackupInfo :=
  ⟨filename, extract_timestamp filename⟩

/-- The sort key of `discover_backups` line 125:
`b.timestamp if b.timestamp else datetime.min`. -/
def sort_key (b : BackupInfo) : Nat :=
  match b.timestamp with
  | some t => dtKey t
  | Option.none => dtKey datetime_min

/-- `backups.sort(key=..., reverse=True)`: Python's sort is stable, and
`reverse=True` reverses comparisons while keeping equal-key elements in their
original order; `List.insertionSort` with `sort_key b ≤ sort_key a` computes
exactly that order. -/
def sort_backups (backups : List BackupInfo) : List BackupInfo :=
  List.insertionSort (fun a b => sort_key b ≤ sort_key a) backups

/-- `restore_service.discover_backups`, lines 78-127: the directory walk
(lines 88-122) produces `found` in scan order; the function returns it
sorted. -/
def discover_backups (found : List BackupInfo) : List BackupInfo :=
  sort_backups found

/-! ### Restore engine (`restore_service.restore_backup`, lines 129-214)

The archive's entries and the per-entry outcome of `zip_ref.extract` are
supplied by the environment; names are `List Char` so the case-insensitive
extension test reduces. -/

/-- Outcome of `zip_ref.extract(file_name, dest_path)` for one entry that is
actually attempted. -/
inductive EntryOutcome
  | ok
  | permissionError
  | otherError (msg : String)
deriving DecidableEq, Repr

structure ZipEntry where
  name : List Char
  outcome : EntryOutcome
deriving DecidableEq, Repr

structure RestoreEnv where
  /-- `backup_info.filepath.exists()` -/
  archive_exists : Bool
  /-- `dest_path.exists()` -/
  dest_exists : Bool
  /-- `any(dest_path.iterdir())` -/
  dest_nonempty : Bool
  /-- whether `shutil.copytree(dest_path, backup_dest)` succeeds -/
  copytree_ok : Bool
  /-- whether `zipfile.ZipFile(filepath, 'r')` opens (`False` = `BadZipFile`) -/
  zip_opens : Bool
  /-- `zip_ref.namelist()` with per-entry extraction outcomes -/
  entries : List ZipEntry
deriving DecidableEq, Repr

/-- `skip_extensions = ['.exe', '.dll', '.bat', '.cmd']`. -/
def skip_extensions : List (List Char) :=
  [".exe".data, ".dll".data, ".bat".data, ".cmd".data]

/-- ASCII lowercasing, enough for `file_name.lower()` against the four ASCII
extensions. -/
def lowerChar (c : Char) : Char :=
  if 'A' ≤ c && c ≤ 'Z' then Char.ofNat (c.toNat + 32) else c

/-- `any(file_name.lower().endswith(ext) for ext in skip_extensions)`. -/
def is_skipped_name (name : List Char) : Bool :=
  skip_extensions.any fun ext => ext.isSuffixOf (name.map lowerChar)

/-- Observable filesystem writes of one restore, in program order. -/
inductive RestoreEvent
  | safetyCopy (target : String)
  | extractFile (name : List Char)
deriving DecidableEq, Repr

structure RestoreOutcome where
  success : Bool
  message : String
  extracted_count : Nat := 0
  skipped_count : Nat := 0
  error_count : Nat := 0
  events : List RestoreEvent := []
deriving DecidableEq, Repr

/-- One iteration of the extraction loop of `restore_backup`, lines 180-195:
skip-listed names are skipped unwritten; `PermissionError` counts as skipped;
any other exception counts as an error; successful entries count as extracted
and are written. -/
def extract_step (acc : Nat × Nat × Nat × List RestoreEvent) (e : ZipEntry) :
    Nat × Nat × Nat × List RestoreEvent :=
  let (ex, sk, er, evs) := acc
  if is_skipped_name e.name then (ex, sk + 1, er, evs)
  else
    match e.outcome with
    | EntryOutcome.ok => (ex + 1, sk, er, evs ++ [RestoreEvent.extractFile e.name])
    | EntryOutcome.permissionError => (ex, sk + 1, er, evs)
    | EntryOutcome.otherError _ => (ex, sk, er + 1, evs)

/-- The extraction loop of `restore_backup`, lines 175-195, yielding
`(extracted_count, skipped_count, error_count, writes)`. -/
def extract_loop (entries : List ZipEntry) : Nat × Nat × Nat × List RestoreEvent :=
  entries.foldl extract_step (0, 0, 0, [])

/-- `restore_service.restore_backup`, lines 129-214.  `dest_name` and
`dest_parent` are `dest_path.name` and `dest_path.parent`;
`backup_timestamp` is `datetime.now().strftime("%Y%m%d_%H%M%S")`.  The
message strings carry the source's fixed prefixes (the interpolated counts
and paths are tracked in the dedicated fields). -/
def restore_backup (env : RestoreEnv) (dest_name dest_parent backup_timestamp : String)
    (create_backup : Bool) : RestoreOutcome :=
  if !env.archive_exists then
    { success := false, message := "Backup file not found" }
  else if !env.dest_exists then
    { success := false, message := "Destination path does not exist" }
  else if create_backup && env.dest_nonempty && !env.copytree_ok then
    { success := false, message := "Failed to create backup of existing files" }
  else
    let pre_events :=
      if create_backup && env.dest_nonempty then
        [RestoreEvent.safetyCopy
          (dest_parent ++ "/" ++ dest_name ++ "_backup_" ++ backup_timestamp)]
      else []
    if !env.zip_opens then
      { success := false, message := "Backup file is corrupted or invalid",
        events := pre_events }
    else
      let (ex, sk, er, evs) := extract_loop env.entries
      if ex == 0 then
        { success := false, message := "No files were extracted from the backup",
          extracted_count := ex, skipped_count := sk, error_count := er,
          events := pre_events ++ evs }
      else
        { success := true, message := "Successfully restored",
          extracted_count := ex, skipped_count := sk, error_count := er,
          events := pre_events ++ evs }

/-! ### Concrete fixtures used by witnesses and counterexamples -/

/-- An enabled weekly schedule whose only day is 0, i.e. Monday in the
repository's own encoding. -/
def weekly_monday_schedule : BackupSchedule :=
  { schedule_id := "w1", schedule_type := ScheduleType.weekly,
    time := ⟨3, 0⟩, days_of_week := [0], enabled := true }

/-- First definition added under schedule id `sched-1`. -/
def sched1_first : BackupSchedule :=
  { schedule_id := "sched-1", name := "first", backup_path := "C:/old" }

/-- Edited definition re-added under the same schedule id `sched-1`. -/
def sched1_second : BackupSchedule :=
  { schedule_id := "sched-1", name := "second", backup_path := "C:/new" }

def serverA : ServerConfig :=
  { server_id := "A", server_name := "Alpha", save_game_path := "D:/saves/A" }

def serverB : ServerConfig :=
  { server_id := "B", server_name := "Beta", save_game_path := "D:/saves/B" }

def serverC : ServerConfig :=
  { server_id := "C", server_name := "Gamma", save_game_path := "D:/saves/C" }

def scheduleABC : BackupSchedule :=
  { schedule_id := "s1", server_ids := ["A", "B", "C"], backup_path := "E:/backups" }

/-- Environment in which only server B's savegame path is missing. -/
def envMissingB : BackupEnv :=
  { savePathExists := fun p => p != "D:/saves/B",
    archiveError := fun _ => Option.none,
    archiveSize := fun _ => 1024,
    isRunning := fun _ => true,
    onedriveAuthenticated := false,
    googleInitialized := false,
    onedriveUpload := fun _ _ => Except.ok false,
    googleUpload := fun _ _ => Except.ok false,
    timestamp := "2024-03-01_14-30-00" }

/-- Environment whose OneDrive backend is authenticated but whose upload
raises. -/
def envCloudDown : BackupEnv :=
  { envMissingB with
    savePathExists := fun _ => true,
    onedriveAuthenticated := true,
    onedriveUpload := fun _ _ => Except.error "HTTP 500" }

def scheduleCloud : BackupSchedule :=
  { scheduleABC with
    enable_cloud_backup := true
    cloud_backup_type := CloudBackupType.onedrive }

/-- Archive whose entries are all skip-listed. -/
def envAllSkipped : RestoreEnv :=
  { archive_exists := true, dest_exists := true, dest_nonempty := true,
    copytree_ok := true, zip_opens := true,
    entries := [⟨"Server.EXE".data, EntryOutcome.ok⟩,
                ⟨"steam_api.dll".data, EntryOutcome.ok⟩] }

/-- Non-empty destination whose safety copy fails. -/
def envCopyFails : RestoreEnv :=
  { envAllSkipped with
    copytree_ok := false
    entries := [⟨"save.dat".data, EntryOutcome.ok⟩] }

/-- The resolved cloud destination path and the statement that the cloud step
cannot report a successful upload: the backend for the schedule's cloud type
is unavailable (unauthenticated / uninitialized) or its upload returns
`False` or raises.  `CloudBackupType.none` has no backend at all. -/
def cloud_step_failed_or_unavailable (env : BackupEnv) (schedule : BackupSchedule)
    (server : ServerConfig) : Prop :=
  let bp := (backup_server env server schedule.backup_path).backup_path
  match schedule.cloud_backup_type with
  | CloudBackupType.onedrive =>
      env.onedriveAuthenticated = false ∨
        ∀ b, env.onedriveUpload bp
            (if schedule.cloud_backup_path != "" then schedule.cloud_backup_path
             else "WinGSMBackups/" ++ server.server_id) = Except.ok b → b = false
  | CloudBackupType.google_cloud =>
      env.googleInitialized = false ∨
        ∀ b, env.googleUpload bp
            (if schedule.cloud_backup_path != "" then
               schedule.cloud_backup_path ++ "/" ++ server.server_id
             else server.server_id) = Except.ok b → b = false
  | CloudBackupType.none => True

/-- The descending-key comparison used by `sort_backups` is total. -/
instance : IsTotal BackupInfo fun a b => sort_key b ≤ sort_key a :=
  ⟨fun a b => Nat.le_total (sort_key b) (sort_key a)⟩

/-- The descending-key comparison used by `sort_backups` is transitive. -/
instance : IsTrans BackupInfo fun a b => sort_key b ≤ sort_key a :=
  ⟨fun _ _ _ hab hbc => Nat.le_trans hbc hab⟩

/-! ### Helper lemmas -/

theorem backup_server_success_eq (env : BackupEnv) (server : ServerConfig)
    (root : String) :
    (backup_server env server root).success =
      (env.savePathExists server.save_game_path
        && (env.archiveError server.server_id).isNone) := by
  unfold backup_server
  cases h : env.savePathExists server.save_game_path <;>
    cases h2 : env.archiveError server.server_id <;> simp [h, h2]

theorem backup_server_server_id_eq (env : BackupEnv) (server : ServerConfig)
    (root : String) :
    (backup_server env server root).server_id = server.server_id := by
  unfold backup_server
  cases h : env.savePathExists server.save_game_path <;>
    cases h2 : env.archiveError server.server_id <;> simp [h, h2]

theorem backup_server_cloud_success_false (env : BackupEnv) (server : ServerConfig)
    (root : String) :
    (backup_server env server root).cloud_backup_success = false := by
  unfold backup_server
  cases h : env.savePathExists server.save_game_path <;>
    cases h2 : env.archiveError server.server_id <;> simp [h, h2]

theorem cloud_upload_step_success_eq (env : BackupEnv) (schedule : BackupSchedule)
    (server : ServerConfig) (r : ServerBackupResult) :
    (cloud_upload_step env schedule server r).success = r.success := by
  unfold cloud_upload_step
  repeat' first | rfl | split
  all_goals dsimp only
  all_goals split <;> rfl

theorem cloud_upload_step_server_id_eq (env : BackupEnv) (schedule : BackupSchedule)
    (server : ServerConfig) (r : ServerBackupResult) :
    (cloud_upload_step env schedule server r).server_id = r.server_id := by
  unfold cloud_upload_step
  repeat' first | rfl | split
  all_goals dsimp only
  all_goals split <;> rfl

/-! ### C4 — retention boundary -/

/-- C4: a snapshot directory is deleted by the sweep exactly when its mtime is
strictly older than `now - retentionDays*24h`; with `retentionDays = 7` and
directories at mtimes `now-6d`, `now-7d`, `now-8d`, only the `now-8d`
directory is deleted and the `now-7d` one is kept. -/
theorem retention_boundary_strict_cutoff (now mtime : Int) :
    (backup_dir_deleted now 7 mtime = true ↔ mtime < now - 7 * 86400) ∧
    cleanup_old_backups now 7 [[now - 6 * 86400, now - 7 * 86400, now - 8 * 86400]]
      = [[now - 6 * 86400, now - 7 * 86400]] := by
  have h6 : backup_dir_deleted now 7 (now - 518400) = false := by
    unfold backup_dir_deleted
    exact decide_eq_false (by omega)
  have h7 : backup_dir_deleted now 7 (now - 604800) = false := by
    unfold backup_dir_deleted
    exact decide_eq_false (by omega)
  have h8 : backup_dir_deleted now 7 (now - 691200) = true := by
    unfold backup_dir_deleted
    exact decide_eq_true (by omega)
  refine ⟨?_, ?_⟩
  · unfold backup_dir_deleted
    constructor
    · intro h
      have := of_decide_eq_true h
      omega
    · intro h
      exact decide_eq_true (by omega)
  · simp [cleanup_old_backups, h6, h7, h8]

/-! ### C2 — weekly trigger day encoding -/

/-- C2 (code bug): the spec and the code's own comment state that both the
stored `days_of_week` and APScheduler use 0=Monday..6=Sunday, so the
registered trigger should fire exactly on the stored days; but `add_schedule`
shifts every day by one (`d + 1`).  For the enabled weekly schedule with
`days_of_week = [0]` (Monday) the registered trigger carries day 1, which
APScheduler reads as Tuesday, not Monday; and a stored day 6 (Sunday) becomes
7, which APScheduler rejects outright. -/
theorem weekly_trigger_day_shift_bug :
    (add_schedule ⟨[], []⟩ weekly_monday_schedule).jobs
      = [⟨"backup_w1", Trigger.cron_weekly [1] 3 0, "w1"⟩] ∧
    trigger_fire_days (Trigger.cron_weekly [1] 3 0) = [some Weekday.tuesday] ∧
    some Weekday.tuesday ≠ some Weekday.monday ∧
    schedule_trigger { weekly_monday_schedule with days_of_week := [6] }
      = Trigger.cron_weekly [7] 3 0 ∧
    apsDayOfWeek 7 = Option.none := by
  decide

/-! ### C3 — idempotent trigger re-registration -/

/-- C3 counterexample: after adding two definitions under the same
`scheduleId`, a lookup does not return the latest definition — `get_schedule`
returns the first-added one (the claim says fires and lookups use the latest
definition, not the first one added). -/
theorem readd_lookup_returns_first_cex :
    get_schedule
        (add_schedule (add_schedule ⟨[], []⟩ sched1_first) sched1_second).schedules
        "sched-1"
      = some sched1_first ∧
    sched1_first ≠ sched1_second := by
  decide

/-- C3 amended: calling `add_schedule` twice with the same `scheduleId`
(starting from a fresh scheduler, both definitions enabled) leaves exactly
one active APScheduler trigger for that id, and that trigger reflects the
latest definition; but the schedules list then holds both copies, and
`get_schedule` — which an actual fire also goes through to resolve its
schedule — returns the first-added definition, not the latest. -/
theorem readd_one_trigger_lookup_first (s1 s2 : BackupSchedule)
    (hid : s1.schedule_id = s2.schedule_id)
    (h1 : s1.enabled = true) (h2 : s2.enabled = true) :
    (add_schedule (add_schedule ⟨[], []⟩ s1) s2).jobs
      = [⟨"backup_" ++ s2.schedule_id, schedule_trigger s2, s2.schedule_id⟩] ∧
    (add_schedule (add_schedule ⟨[], []⟩ s1) s2).schedules = [s1, s2] ∧
    get_schedule (add_schedule (add_schedule ⟨[], []⟩ s1) s2).schedules
        s2.schedule_id
      = some s1 := by
  simp [add_schedule, aps_add_job, get_schedule, h1, h2, hid, List.find?]

/-- C3 amended, witnessed at the two concrete `sched-1` definitions. -/
theorem readd_one_trigger_lookup_first_witness :
    (add_schedule (add_schedule ⟨[], []⟩ sched1_first) sched1_second).jobs
      = [⟨"backup_" ++ sched1_second.schedule_id, schedule_trigger sched1_second,
          sched1_second.schedule_id⟩] ∧
    (add_schedule (add_schedule ⟨[], []⟩ sched1_first) sched1_second).schedules
      = [sched1_first, sched1_second] ∧
    get_schedule
        (add_schedule (add_schedule ⟨[], []⟩ sched1_first) sched1_second).schedules
        sched1_second.schedule_id
      = some sched1_first :=
  readd_one_trigger_lookup_first sched1_first sched1_second rfl rfl rfl

/-! ### C1 — partial-failure isolation -/

/-- C1: in a run over enabled schedule members `[A, B, C]` where exactly B's
savegame path is missing, the job records exactly three results in server
order with successes `[true, false, true]`, and the job status is `failed`;
B's failure does not keep the later server C from being backed up. -/
theorem partial_failure_isolation (env : BackupEnv) (schedules : List BackupSchedule)
    (schedule_id job_id : String) (schedule : BackupSchedule) (A B C : ServerConfig)
    (hfound : get_schedule schedules schedule_id = some schedule)
    (hA : schedule.server_ids.contains A.server_id = true) (hAe : A.enabled = true)
    (hB : schedule.server_ids.contains B.server_id = true) (hBe : B.enabled = true)
    (hC : schedule.server_ids.contains C.server_id = true) (hCe : C.enabled = true)
    (hApath : env.savePathExists A.save_game_path = true)
    (hAerr : env.archiveError A.server_id = Option.none)
    (hBpath : env.savePathExists B.save_game_path = false)
    (hCpath : env.savePathExists C.save_game_path = true)
    (hCerr : env.archiveError C.server_id = Option.none) :
    ((execute_backup_async env schedules schedule_id [A, B, C] job_id).1.server_results.map
        fun r => (r.server_id, r.success))
      = [(A.server_id, true), (B.server_id, false), (C.server_id, true)] ∧
    (execute_backup_async env schedules schedule_id [A, B, C] job_id).1.status
      = BackupStatus.failed := by
  have hfilter : [A, B, C].filter
      (fun s => schedule.server_ids.contains s.server_id && s.enabled) = [A, B, C] := by
    simp only [List.filter_cons, List.filter_nil, hA, hAe, hB, hBe, hC, hCe]
    simp
  have hsA : (process_server env schedule A).1.success = true := by
    simp [process_server, cloud_upload_step_success_eq, backup_server_success_eq,
      hApath, hAerr]
  have hsB : (process_server env schedule B).1.success = false := by
    simp [process_server, cloud_upload_step_success_eq, backup_server_success_eq, hBpath]
  have hsC : (process_server env schedule C).1.success = true := by
    simp [process_server, cloud_upload_step_success_eq, backup_server_success_eq,
      hCpath, hCerr]
  have hiA : (process_server env schedule A).1.server_id = A.server_id := by
    simp [process_server, cloud_upload_step_server_id_eq, backup_server_server_id_eq]
  have hiB : (process_server env schedule B).1.server_id = B.server_id := by
    simp [process_server, cloud_upload_step_server_id_eq, backup_server_server_id_eq]
  have hiC : (process_server env schedule C).1.server_id = C.server_id := by
    simp [process_server, cloud_upload_step_server_id_eq, backup_server_server_id_eq]
  refine ⟨?_, ?_⟩
  · simp only [execute_backup_async, hfound, Option.getD_some, hfilter, List.map_cons,
      List.map_nil]
    simp [hsA, hsB, hsC, hiA, hiB, hiC]
  · simp only [execute_backup_async, hfound, Option.getD_some, hfilter, List.map_cons,
      List.map_nil]
    simp [hsA, hsB, hsC]

/-- C1, witnessed at the concrete servers A, B, C with only B's savegame
path missing. -/
theorem partial_failure_isolation_witness :
    ((execute_backup_async envMissingB [scheduleABC] "s1" [serverA, serverB, serverC]
        "job-1").1.server_results.map fun r => (r.server_id, r.success))
      = [(serverA.server_id, true), (serverB.server_id, false),
         (serverC.server_id, true)] ∧
    (execute_backup_async envMissingB [scheduleABC] "s1" [serverA, serverB, serverC]
        "job-1").1.status = BackupStatus.failed :=
  partial_failure_isolation envMissingB [scheduleABC] "s1" "job-1" scheduleABC
    serverA serverB serverC (by decide) (by decide) (by decide) (by decide)
    (by decide) (by decide) (by decide) (by decide) (by decide) (by decide)
    (by decide) (by decide)

/-! ### C10 — vacuous run is a success -/

/-- C10: when no provided server is both listed in the resolved schedule's
`server_ids` and enabled — which includes a run with an unknown `scheduleId`,
whose fallback `BackupSchedule()` has an empty `server_ids` — the job carries
no server results, its status is `completed`, and no server is stopped,
archived or restarted. -/
theorem vacuous_run_completed (env : BackupEnv) (schedules : List BackupSchedule)
    (schedule_id job_id : String) (servers : List ServerConfig)
    (h : ∀ s ∈ servers,
      s.server_id ∉ ((get_schedule schedules schedule_id).getD {}).server_ids
        ∨ s.enabled = false) :
    (execute_backup_async env schedules schedule_id servers job_id).1.server_results
      = [] ∧
    (execute_backup_async env schedules schedule_id servers job_id).1.status
      = BackupStatus.completed ∧
    (execute_backup_async env schedules schedule_id servers job_id).2 = [] := by
  have hfilter : servers.filter
      (fun s =>
        ((get_schedule schedules schedule_id).getD {}).server_ids.contains s.server_id
          && s.enabled) = [] := by
    rw [List.filter_eq_nil_iff]
    intro a ha
    rcases h a ha with hm | he
    · simp [hm]
    · simp [he]
  refine ⟨?_, ?_, ?_⟩ <;>
    · simp only [execute_backup_async, hfilter]
      simp

/-- C10, witnessed at an unknown schedule id over a non-empty, enabled server
list: the fallback schedule targets no server, and the run is reported
completed with no events. -/
theorem vacuous_run_completed_witness :
    (execute_backup_async envMissingB [] "missing" [serverA] "job-2").1.server_results
      = [] ∧
    (execute_backup_async envMissingB [] "missing" [serverA] "job-2").1.status
      = BackupStatus.completed ∧
    (execute_backup_async envMissingB [] "missing" [serverA] "job-2").2 = [] :=
  vacuous_run_completed envMissingB [] "missing" "job-2" [serverA] (by decide)

/-! ### C8 — cloud failure is non-fatal, restart unconditional -/

/-- C8: for a server whose local archive step succeeds in a schedule with
cloud backup enabled, an unavailable (unauthenticated / uninitialized /
absent) backend, an upload returning `False`, or an upload that raises leaves
`cloud_backup_success = false` while the result's `success` stays `true`, and
the server is restarted regardless of the cloud outcome. -/
theorem cloud_failure_nonfatal_restart (env : BackupEnv) (schedule : BackupSchedule)
    (server : ServerConfig)
    (hpath : env.savePathExists server.save_game_path = true)
    (herr : env.archiveError server.server_id = Option.none)
    (_hcloud : schedule.enable_cloud_backup = true)
    (hfail : cloud_step_failed_or_unavailable env schedule server) :
    (process_server env schedule server).1.success = true ∧
    (process_server env schedule server).1.cloud_backup_success = false ∧
    JobEvent.startServer server.server_id ∈ (process_server env schedule server).2 := by
  have hsuc : (cloud_upload_step env schedule server
      (backup_server env server schedule.backup_path)).success = true := by
    rw [cloud_upload_step_success_eq, backup_server_success_eq, hpath, herr]
    rfl
  have hdefault : (backup_server env server schedule.backup_path).cloud_backup_success
      = false := backup_server_cloud_success_false env server schedule.backup_path
  refine ⟨?_, ?_, ?_⟩
  · simpa [process_server] using hsuc
  · simp only [process_server]
    unfold cloud_step_failed_or_unavailable at hfail
    unfold cloud_upload_step
    split
    · cases htype : schedule.cloud_backup_type
      case none =>
        rw [htype] at hfail
        simp only [htype]
        exact hdefault
      case onedrive =>
        rw [htype] at hfail
        simp only at hfail
        simp only [htype]
        rcases hfail with hauth | hupl
        · rw [hauth]
          simp only [Bool.false_eq_true, if_false]
          exact hdefault
        · cases hauth : env.onedriveAuthenticated
          · simp only [Bool.false_eq_true, if_false]
            exact hdefault
          · simp only [if_true]
            split
            · next b hb => exact hupl b hb
            · rfl
      case google_cloud =>
        rw [htype] at hfail
        simp only at hfail
        simp only [htype]
        rcases hfail with hinit | hupl
        · rw [hinit]
          simp only [Bool.false_eq_true, if_false]
          exact hdefault
        · cases hinit : env.googleInitialized
          · simp only [Bool.false_eq_true, if_false]
            exact hdefault
          · simp only [if_true]
            split
            · next b hb => exact hupl b hb
            · rfl
    · exact hdefault
  · simp [process_server, hsuc]

/-- C8, witnessed at an authenticated OneDrive backend whose upload raises. -/
theorem cloud_failure_nonfatal_restart_witness :
    (process_server envCloudDown scheduleCloud serverA).1.success = true ∧
    (process_server envCloudDown scheduleCloud serverA).1.cloud_backup_success
      = false ∧
    JobEvent.startServer serverA.server_id
      ∈ (process_server envCloudDown scheduleCloud serverA).2 :=
  cloud_failure_nonfatal_restart envCloudDown scheduleCloud serverA (by decide)
    (by decide) (by decide)
    (Or.inr fun b hb => by cases hb)

/-! ### C5 — timestamp parsing -/

/-- C5 counterexample: the filename `S_2024-03-01_143000.zip` has last two
tokens `2024-03-01` and `143000`, which match neither `YYYY-MM-DD_HH-MM-SS`
nor `YYYYMMDD_HHMMSS`; the claim says such a filename parses to null, but the
code's third attempt (delete dashes, retry the compact format) parses it to
`2024-03-01T14:30:00`. -/
theorem timestamp_two_formats_cex :
    strptime6 fmtDashed "2024-03-01_143000".data = Option.none ∧
    strptime6 fmtCompact "2024-03-01_143000".data = Option.none ∧
    last_two_tokens "S_2024-03-01_143000.zip" = some "2024-03-01_143000".data ∧
    extract_timestamp "S_2024-03-01_143000.zip" = some ⟨2024, 3, 1, 14, 30, 0⟩ := by
  decide

/-- C5 amended: the parser strips the extension, reads the last two
underscore-separated tokens (requiring at least three tokens), and tries
`YYYY-MM-DD_HH-MM-SS`, then `YYYYMMDD_HHMMSS`, then — after deleting every
dash — `YYYYMMDD_HHMMSS` once more; a filename matching none of the three
attempts (or with fewer than three tokens) parses to null without raising;
the spec's three examples behave as stated, and the dash-stripped third
attempt accepts `S_2024-03-01_143000.zip`. -/
theorem timestamp_three_formats (fn : String) (ts : List Char)
    (hts : last_two_tokens fn = some ts)
    (h1 : strptime6 fmtDashed ts = Option.none)
    (h2 : strptime6 fmtCompact ts = Option.none)
    (h3 : strptime6 fmtCompact (ts.filter fun c => c != '-') = Option.none) :
    extract_timestamp fn = Option.none ∧
    extract_timestamp "MyServer_2024-03-01_14-30-00.zip" = some ⟨2024, 3, 1, 14, 30, 0⟩ ∧
    extract_timestamp "MyServer_20240301_143000.zip" = some ⟨2024, 3, 1, 14, 30, 0⟩ ∧
    extract_timestamp "MyServer_backup.zip" = Option.none ∧
    extract_timestamp "S_2024-03-01_143000.zip" = some ⟨2024, 3, 1, 14, 30, 0⟩ := by
  refine ⟨?_, by decide, by decide, by decide, by decide⟩
  simp only [extract_timestamp, hts, h1, h2, h3]

/-- C5 amended, witnessed at `A_foo_bar.zip`, whose last two tokens are
`foo` and `bar` and match none of the three attempts. -/
theorem timestamp_three_formats_witness :
    extract_timestamp "A_foo_bar.zip" = Option.none ∧
    extract_timestamp "MyServer_2024-03-01_14-30-00.zip" = some ⟨2024, 3, 1, 14, 30, 0⟩ ∧
    extract_timestamp "MyServer_20240301_143000.zip" = some ⟨2024, 3, 1, 14, 30, 0⟩ ∧
    extract_timestamp "MyServer_backup.zip" = Option.none ∧
    extract_timestamp "S_2024-03-01_143000.zip" = some ⟨2024, 3, 1, 14, 30, 0⟩ :=
  timestamp_three_formats "A_foo_bar.zip" "foo_bar".data (by decide) (by decide)
    (by decide) (by decide)

/-! ### C6 — restore success criterion -/

theorem extract_step_foldl_skipped (entries : List ZipEntry)
    (h : ∀ e ∈ entries, is_skipped_name e.name = true) :
    ∀ ex sk er evs, entries.foldl extract_step (ex, sk, er, evs)
      = (ex, sk + entries.length, er, evs) := by
  induction entries with
  | nil => intro ex sk er evs; simp
  | cons e rest ih =>
      intro ex sk er evs
      have he : is_skipped_name e.name = true := h e (by simp)
      simp only [List.foldl_cons, extract_step, he, if_true, List.length_cons]
      rw [ih (fun x hx => h x (by simp [hx])) ex (sk + 1) er evs]
      have harith : sk + 1 + rest.length = sk + (rest.length + 1) := by omega
      rw [harith]

theorem extract_loop_all_skipped (entries : List ZipEntry)
    (h : ∀ e ∈ entries, is_skipped_name e.name = true) :
    extract_loop entries = (0, entries.length, 0, []) := by
  unfold extract_loop
  rw [extract_step_foldl_skipped entries h 0 0 0 []]
  simp

/-- C6: when the archive and destination exist, the safety copy (when taken)
succeeds and the zip opens, the restore reports success exactly when at least
one file was extracted; and an archive all of whose entries carry skip-listed
extensions yields `extracted_count = 0` and overall failure with no per-file
error. -/
theorem restore_success_iff_extracted (env : RestoreEnv)
    (dn dp ts : String) (cb : Bool)
    (ha : env.archive_exists = true) (hd : env.dest_exists = true)
    (hs : cb = true → env.dest_nonempty = true → env.copytree_ok = true)
    (hz : env.zip_opens = true) :
    ((restore_backup env dn dp ts cb).success = true ↔
      0 < (restore_backup env dn dp ts cb).extracted_count) ∧
    ((∀ e ∈ env.entries, is_skipped_name e.name = true) →
      (restore_backup env dn dp ts cb).extracted_count = 0 ∧
      (restore_backup env dn dp ts cb).success = false ∧
      (restore_backup env dn dp ts cb).error_count = 0) := by
  have hcopy : (cb && env.dest_nonempty && !env.copytree_ok) = false := by
    cases hcb : cb
    · rfl
    · cases hne : env.dest_nonempty
      · rfl
      · rw [hs hcb hne]
        rfl
  refine ⟨?_, ?_⟩
  · simp only [restore_backup, ha, hd, hz, hcopy, Bool.not_true, Bool.false_eq_true,
      if_false]
    rcases hloop : extract_loop env.entries with ⟨ex, sk, er, evs⟩
    simp only [hloop]
    cases hex : ex == 0
    · have hx : ¬ex = 0 := by simpa using hex
      simp
      omega
    · have hx : ex = 0 := by simpa using hex
      subst hx
      simp
  · intro hall
    have hloopall := extract_loop_all_skipped env.entries hall
    simp only [restore_backup, ha, hd, hz, hcopy, Bool.not_true, Bool.false_eq_true,
      if_false, hloopall]
    simp

/-- C6, witnessed at an archive containing only `Server.EXE` and
`steam_api.dll`. -/
theorem restore_success_iff_extracted_witness :
    ((restore_backup envAllSkipped "SaveGames" "D:/srv" "20240301_143000" true).success
        = true ↔
      0 < (restore_backup envAllSkipped "SaveGames" "D:/srv" "20240301_143000"
          true).extracted_count) ∧
    ((∀ e ∈ envAllSkipped.entries, is_skipped_name e.name = true) →
      (restore_backup envAllSkipped "SaveGames" "D:/srv" "20240301_143000"
          true).extracted_count = 0 ∧
      (restore_backup envAllSkipped "SaveGames" "D:/srv" "20240301_143000"
          true).success = false ∧
      (restore_backup envAllSkipped "SaveGames" "D:/srv" "20240301_143000"
          true).error_count = 0) :=
  restore_success_iff_extracted envAllSkipped "SaveGames" "D:/srv" "20240301_143000"
    true (by decide) (by decide) (fun _ _ => by decide) (by decide)

/-! ### C7 — safety snapshot before extraction -/

/-- C7: restoring with `createSafetyBackup` into an existing, non-empty
destination first copies the destination to the sibling
`{name}_backup_{timestamp}` directory — the copy is the first filesystem
write, before any extraction — and if that copy fails the restore returns
failure without writing a single file from the archive. -/
theorem safety_snapshot_first (env : RestoreEnv) (dn dp ts : String)
    (ha : env.archive_exists = true) (hd : env.dest_exists = true)
    (hne : env.dest_nonempty = true) :
    (env.copytree_ok = true →
      (restore_backup env dn dp ts true).events.head?
        = some (RestoreEvent.safetyCopy (dp ++ "/" ++ dn ++ "_backup_" ++ ts))) ∧
    (env.copytree_ok = false →
      (restore_backup env dn dp ts true).success = false ∧
      (restore_backup env dn dp ts true).events = []) := by
  refine ⟨?_, ?_⟩
  · intro hc
    simp only [restore_backup, ha, hd, hne, hc, Bool.not_true, Bool.and_false,
      Bool.and_true, Bool.true_and, Bool.false_eq_true, if_false, if_true]
    cases hz : env.zip_opens
    · simp
    · rcases hloop : extract_loop env.entries with ⟨ex, sk, er, evs⟩
      simp only [hloop]
      cases hex : ex == 0 <;> simp
  · intro hc
    simp only [restore_backup, ha, hd, hne, hc, Bool.not_false, Bool.and_true,
      Bool.true_and, if_true]
    simp

/-- C7, witnessed at a non-empty destination whose safety copy fails. -/
theorem safety_snapshot_first_witness :
    (envCopyFails.copytree_ok = true →
      (restore_backup envCopyFails "SaveGames" "D:/srv" "20240301_143000" true).events.head?
        = some (RestoreEvent.safetyCopy
            ("D:/srv" ++ "/" ++ "SaveGames" ++ "_backup_" ++ "20240301_143000"))) ∧
    (envCopyFails.copytree_ok = false →
      (restore_backup envCopyFails "SaveGames" "D:/srv" "20240301_143000" true).success
        = false ∧
      (restore_backup envCopyFails "SaveGames" "D:/srv" "20240301_143000" true).events
        = []) :=
  safety_snapshot_first envCopyFails "SaveGames" "D:/srv" "20240301_143000"
    (by decide) (by decide) (by decide)

/-! ### C9 — discovery ordering -/

/-- C9 counterexample: a filename parsing to exactly `datetime.min` ties with
null-timestamp snapshots under the sort key `timestamp or datetime.min`, and
the stable sort then keeps the null entry *before* the parsed one — the claim
that every null-timestamp snapshot is placed after every snapshot with a
parsed timestamp fails. -/
theorem discovery_null_before_parsed_cex :
    (mkBackupInfo "X_backup.zip").timestamp = Option.none ∧
    (mkBackupInfo "X_00010101_000000.zip").timestamp = some datetime_min ∧
    discover_backups
        [mkBackupInfo "X_backup.zip", mkBackupInfo "X_00010101_000000.zip"]
      = [mkBackupInfo "X_backup.zip", mkBackupInfo "X_00010101_000000.zip"] := by
  decide

/-- C9 amended: `discover_backups` returns the scanned snapshots sorted in
descending order of the key `parsed timestamp, or datetime.min when null` —
so null entries come after every snapshot whose timestamp is later than
`datetime.min`, while a snapshot parsing to exactly `datetime.min` ties with
nulls and stays in scan order — and on the claimed instance
`[T1=null, T2=10:00, T3=12:00]` the result is `[T3, T2, T1]`. -/
theorem discovery_sorted_desc :
    (∀ found : List BackupInfo,
      List.Sorted (fun a b => sort_key b ≤ sort_key a) (discover_backups found)) ∧
    discover_backups
        [mkBackupInfo "A_backup.zip", mkBackupInfo "A_2024-03-01_10-00-00.zip",
         mkBackupInfo "A_2024-03-01_12-00-00.zip"]
      = [mkBackupInfo "A_2024-03-01_12-00-00.zip",
         mkBackupInfo "A_2024-03-01_10-00-00.zip",
         mkBackupInfo "A_backup.zip"] := by
  refine ⟨?_, by decide⟩
  intro found
  unfold discover_backups sort_backups
  exact List.sorted_insertionSort _ found
